import Mathlib

/-!
Verification development for `tiramisu_asr/runners/transducer_runners.py`
(repository TiramisuASR): the `TransducerTrainer` class.

Shallow embedding: tensors are lists of rationals (exact arithmetic),
the external collaborators (the acoustic model's forward pass, the
`rnnt_loss` kernel, the automatic-differentiation engine and the
optimizer's `apply_gradients`) are oracle functions bundled in a context
structure, and each method of the class is a pure function from a trainer
state and a batch to a new state together with a trace of the external
calls it makes, in the order the Python source makes them.
-/

namespace TiramisuASR

/-- A batch as destructured by `_train_step` / `_eval_step`:
`_, features, input_length, labels, label_length, pred_inp = batch`. -/
structure Batch where
  path : String
  features : List ℚ
  input_length : List ℕ
  labels : List ℕ
  label_length : List ℕ
  pred_inp : List ℕ
deriving Repr, DecidableEq

/-- The state of a `tf.keras.metrics.Mean` metric: a running total and a
count of values seen; `update_state(values)` adds `sum(values)` to the
total and `len(values)` to the count, and `result()` is `total / count`. -/
structure MeanMetric where
  name : String
  dtype : String
  total : ℚ
  count : ℕ
deriving Repr, DecidableEq

def MeanMetric.updateState (m : MeanMetric) (values : List ℚ) : MeanMetric :=
  { m with total := m.total + values.sum, count := m.count + values.length }

def MeanMetric.result (m : MeanMetric) : ℚ := m.total / (m.count : ℚ)

/-- The external collaborators of `TransducerTrainer` and the scalar
configuration it reads from itself, its model and its text featurizer:
`model` is the acoustic model's forward pass as a function of the
trainable variables, the batch input `(features, pred_inp)` and the
`training` flag; `rnnt_loss` is the loss kernel
(logits, labels, label_length, logit_length, blank index) returning the
per-example losses; `grad` is `tape.gradient`, differentiating a recorded
scalar computation (as a function of the trainable variables) at the
current variables; `apply_gradients` is the optimizer step taking its
state, the gradients and the variables and returning the new optimizer
state and new variables. -/
structure Ctx where
  model : List ℚ → List ℚ × List ℕ → Bool → List ℚ
  time_reduction_factor : ℕ
  rnnt_loss : List ℚ → List ℕ → List ℕ → List ℕ → ℕ → List ℚ
  grad : (List ℚ → ℚ) → List ℚ → List ℚ
  apply_gradients : List ℚ → List ℚ → List ℚ → List ℚ × List ℚ
  blank : ℕ
  global_batch_size : ℕ
  is_mixed_precision : Bool

/-- The mutable state of the trainer touched by the two step methods:
the model's trainable variables, the optimizer's state and (for the
mixed-precision `LossScaleOptimizer`) its loss scale, and the two metric
dictionaries keyed by metric name. -/
structure TrainerState where
  trainable_variables : List ℚ
  opt_state : List ℚ
  loss_scale : ℚ
  train_metrics : List (String × MeanMetric)
  eval_metrics : List (String × MeanMetric)

/-- One external call made by a method, recorded in source order. The
`spawnWorker` and `interWorkerSync` constructors exist so that the
absence of any concurrency primitive in the traces is expressible; no
method of this file ever emits them. -/
inductive Event where
  | modelCall (params : List ℚ) (features : List ℚ) (pred_inp : List ℕ) (training : Bool)
  | lossCall (logits : List ℚ) (labels : List ℕ) (label_length : List ℕ)
      (logit_length : List ℕ) (blank : ℕ)
  | gradCompute
  | applyGrads (gradients : List ℚ)
  | metricUpdate (key : String) (values : List ℚ)
  | strategyScope
  | modelSummary
  | createCkptManager (max_to_keep : ℕ)
  | setTrainLoader (dataset : String)
  | setEvalLoader (dataset : String) (eval_train_rate : ℕ)
  | loadCheckpoint
  | runLoop
  | spawnWorker
  | interWorkerSync
deriving Repr, DecidableEq

/-- Update of `metrics[key].update_state(values)` on a metric dictionary. -/
def updateMetric (ms : List (String × MeanMetric)) (key : String) (values : List ℚ) :
    List (String × MeanMetric) :=
  ms.map (fun p => if p.1 = key then (p.1, p.2.updateState values) else p)

/-- `tf.nn.compute_average_loss(per_example_loss, global_batch_size=n)`:
the sum of the per-example losses divided by the global batch size. -/
def compute_average_loss (per_example_loss : List ℚ) (global_batch_size : ℕ) : ℚ :=
  per_example_loss.sum / (global_batch_size : ℚ)

/-- `set_train_metrics`: the train metric dictionary it installs. -/
def set_train_metrics : List (String × MeanMetric) :=
  [("transducer_loss",
    { name := "train_transducer_loss", dtype := "float32", total := 0, count := 0 })]

/-- `set_eval_metrics`: the eval metric dictionary it installs. -/
def set_eval_metrics : List (String × MeanMetric) :=
  [("transducer_loss",
    { name := "eval_transducer_loss", dtype := "float32", total := 0, count := 0 })]

/-- `TransducerTrainer._train_step(batch)`: forward pass under the
gradient tape, per-example RNNT loss, average by the global batch size,
gradient (of the loss-scaled average when `is_mixed_precision`, then
unscaled), optimizer application, and train-metric accumulation of the
per-example losses. Returns the new state and the trace of external
calls in source order. -/
def _train_step (env : Ctx) (s : TrainerState) (batch : Batch) :
    TrainerState × List Event :=
  let logits := env.model s.trainable_variables (batch.features, batch.pred_inp) true
  let logit_length := batch.input_length.map (fun l => l / env.time_reduction_factor)
  let per_train_loss :=
    env.rnnt_loss logits batch.labels batch.label_length logit_length env.blank
  let train_loss_fn : List ℚ → ℚ := fun p =>
    compute_average_loss
      (env.rnnt_loss (env.model p (batch.features, batch.pred_inp) true)
        batch.labels batch.label_length logit_length env.blank)
      env.global_batch_size
  let gradients :=
    if env.is_mixed_precision then
      (env.grad (fun p => s.loss_scale * train_loss_fn p) s.trainable_variables).map
        (fun g => g / s.loss_scale)
    else
      env.grad train_loss_fn s.trainable_variables
  let applied := env.apply_gradients s.opt_state gradients s.trainable_variables
  ({ s with
      opt_state := applied.1,
      trainable_variables := applied.2,
      train_metrics := updateMetric s.train_metrics "transducer_loss" per_train_loss },
   [Event.modelCall s.trainable_variables batch.features batch.pred_inp true,
    Event.lossCall logits batch.labels batch.label_length logit_length env.blank,
    Event.gradCompute,
    Event.applyGrads gradients,
    Event.metricUpdate "transducer_loss" per_train_loss])

/-- `TransducerTrainer._eval_step(batch)`: forward pass with
`training=False`, per-example RNNT loss, eval-metric accumulation.
No gradient is taken and no optimizer call is made. -/
def _eval_step (env : Ctx) (s : TrainerState) (batch : Batch) :
    TrainerState × List Event :=
  let logits := env.model s.trainable_variables (batch.features, batch.pred_inp) false
  let logit_length := batch.input_length.map (fun l => l / env.time_reduction_factor)
  let eval_loss :=
    env.rnnt_loss logits batch.labels batch.label_length logit_length env.blank
  ({ s with
      eval_metrics := updateMetric s.eval_metrics "transducer_loss" eval_loss },
   [Event.modelCall s.trainable_variables batch.features batch.pred_inp false,
    Event.lossCall logits batch.labels batch.label_length logit_length env.blank,
    Event.metricUpdate "transducer_loss" eval_loss])

/-- The optimizer object held by the trainer after `compile`:
either the result of `tf.keras.optimizers.get(identifier)` or that
result wrapped in `mixed_precision.LossScaleOptimizer(inner, "dynamic")`. -/
inductive OptimizerObj where
  | getResult (identifier : String)
  | lossScaleOptimizer (inner : OptimizerObj) (loss_scale_mode : String)
deriving Repr, DecidableEq

/-- `tf.keras.optimizers.get(identifier)`. -/
def optimizers_get (identifier : String) : OptimizerObj := .getResult identifier

/-- Modelled from the spec: `create_checkpoint_manager` lives in
`BaseTrainer` (`base_runners.py`), which is not under `src/`; per the
spec's trainer-base description it creates a checkpoint manager over the
given model and optimizer keeping at most `max_to_keep` checkpoints. -/
structure CheckpointManager where
  max_to_keep : ℕ
  model : String
  optimizer : OptimizerObj
deriving Repr, DecidableEq

def create_checkpoint_manager (max_to_keep : ℕ) (model : String)
    (optimizer : OptimizerObj) : CheckpointManager :=
  { max_to_keep := max_to_keep, model := model, optimizer := optimizer }

/-- The fields of the trainer assigned by `compile`. -/
structure CompileState where
  model : Option String
  optimizer : Option OptimizerObj
  ckpt_manager : Option CheckpointManager
deriving Repr, DecidableEq

/-- `TransducerTrainer.compile(model, optimizer, max_to_keep)`: inside
the strategy's scope it stores the model, prints its summary, resolves
the optimizer with `tf.keras.optimizers.get`, wraps it in a dynamic
`LossScaleOptimizer` when `is_mixed_precision`, and then creates the
checkpoint manager over the model and that optimizer. -/
def compile (is_mixed_precision : Bool) (model : String) (optimizer : String)
    (max_to_keep : ℕ) : CompileState × List Event :=
  let opt0 := optimizers_get optimizer
  let opt := if is_mixed_precision then
      OptimizerObj.lossScaleOptimizer opt0 "dynamic"
    else opt0
  ({ model := some model,
     optimizer := some opt,
     ckpt_manager := some (create_checkpoint_manager max_to_keep model opt) },
   [Event.strategyScope, Event.modelSummary, Event.createCkptManager max_to_keep])

/-- `TransducerTrainer.fit(train_dataset, eval_dataset, eval_train_ratio)`.
Modelled from the spec: the four callees (`set_train_data_loader`,
`set_eval_data_loader`, `load_checkpoint`, `run`) live in `BaseTrainer`
(`base_runners.py`), which is not under `src/`; each is modelled as the
corresponding trace event, so `fit` is the sequence of those calls in
source order. -/
def fit (train_dataset : String) (eval_dataset : String) (eval_train_rate : ℕ) :
    List Event :=
  [Event.setTrainLoader train_dataset,
   Event.setEvalLoader eval_dataset eval_train_rate,
   Event.loadCheckpoint,
   Event.runLoop]

/-- The external collaborators again, now fallible: each call may stop
the step with an error of type `ε`. `grad` here is `tape.gradient`
applied to the recorded scalar loss value and the trainable variables. -/
structure CtxE (ε : Type) where
  model : List ℚ → List ℚ × List ℕ → Bool → Except ε (List ℚ)
  time_reduction_factor : ℕ
  rnnt_loss : List ℚ → List ℕ → List ℕ → List ℕ → ℕ → Except ε (List ℚ)
  grad : ℚ → List ℚ → Except ε (List ℚ)
  apply_gradients : List ℚ → List ℚ → List ℚ → Except ε (List ℚ × List ℚ)
  blank : ℕ
  global_batch_size : ℕ
  is_mixed_precision : Bool

/-- `_train_step` over fallible collaborators: the same pipeline as
`_train_step`, written as a plain monadic sequence with no error
handler of its own, so the first collaborator failure is returned to
the caller unchanged. -/
def _train_stepE {ε : Type} (env : CtxE ε) (s : TrainerState) (batch : Batch) :
    Except ε TrainerState := do
  let logits ← env.model s.trainable_variables (batch.features, batch.pred_inp) true
  let logit_length := batch.input_length.map (fun l => l / env.time_reduction_factor)
  let per_train_loss ←
    env.rnnt_loss logits batch.labels batch.label_length logit_length env.blank
  let train_loss := compute_average_loss per_train_loss env.global_batch_size
  let gradients ←
    if env.is_mixed_precision then do
      let scaled_gradients ← env.grad (s.loss_scale * train_loss) s.trainable_variables
      pure (scaled_gradients.map (fun g => g / s.loss_scale))
    else
      env.grad train_loss s.trainable_variables
  let applied ← env.apply_gradients s.opt_state gradients s.trainable_variables
  pure { s with
      opt_state := applied.1,
      trainable_variables := applied.2,
      train_metrics := updateMetric s.train_metrics "transducer_loss" per_train_loss }

/-- `_eval_step` over fallible collaborators: the same pipeline as
`_eval_step`, with no error handler of its own. -/
def _eval_stepE {ε : Type} (env : CtxE ε) (s : TrainerState) (batch : Batch) :
    Except ε TrainerState := do
  let logits ← env.model s.trainable_variables (batch.features, batch.pred_inp) false
  let logit_length := batch.input_length.map (fun l => l / env.time_reduction_factor)
  let eval_loss ←
    env.rnnt_loss logits batch.labels batch.label_length logit_length env.blank
  pure { s with
      eval_metrics := updateMetric s.eval_metrics "transducer_loss" eval_loss }

/-- The per-example train loss computed by `_train_step` from state `s`
and batch `batch`: the RNNT loss of the training-mode forward pass. -/
def per_train_loss_of (env : Ctx) (s : TrainerState) (batch : Batch) : List ℚ :=
  env.rnnt_loss (env.model s.trainable_variables (batch.features, batch.pred_inp) true)
    batch.labels batch.label_length
    (batch.input_length.map (fun l => l / env.time_reduction_factor)) env.blank

/-- The per-example eval loss computed by `_eval_step`. -/
def eval_loss_of (env : Ctx) (s : TrainerState) (batch : Batch) : List ℚ :=
  env.rnnt_loss (env.model s.trainable_variables (batch.features, batch.pred_inp) false)
    batch.labels batch.label_length
    (batch.input_length.map (fun l => l / env.time_reduction_factor)) env.blank

/-- The scalar loss recorded on the tape, as a function of the trainable
variables: the averaged per-example RNNT loss of the training-mode
forward pass. -/
def train_loss_fn (env : Ctx) (batch : Batch) : List ℚ → ℚ := fun p =>
  compute_average_loss
    (env.rnnt_loss (env.model p (batch.features, batch.pred_inp) true)
      batch.labels batch.label_length
      (batch.input_length.map (fun l => l / env.time_reduction_factor)) env.blank)
    env.global_batch_size

/-- The gradients `_train_step` hands to the optimizer: the gradient of
the averaged loss, computed through the loss-scaled branch when
`is_mixed_precision` and directly otherwise. -/
def gradients_of (env : Ctx) (s : TrainerState) (batch : Batch) : List ℚ :=
  if env.is_mixed_precision then
    (env.grad (fun p => s.loss_scale * train_loss_fn env batch p)
        s.trainable_variables).map (fun g => g / s.loss_scale)
  else
    env.grad (train_loss_fn env batch) s.trainable_variables

/-- Iterated train steps: fold `_train_step` over a list of batches. -/
def runTrainSteps (env : Ctx) (s : TrainerState) (bs : List Batch) : TrainerState :=
  bs.foldl (fun st b => (_train_step env st b).1) s

/-- Iterated eval steps: fold `_eval_step` over a list of batches. -/
def runEvalSteps (env : Ctx) (s : TrainerState) (bs : List Batch) : TrainerState :=
  bs.foldl (fun st b => (_eval_step env st b).1) s

/-- The per-example train losses of each step of `runTrainSteps`, with
the state evolving as the steps are taken. -/
def trainPerLosses (env : Ctx) (s : TrainerState) : List Batch → List (List ℚ)
  | [] => []
  | b :: bs => per_train_loss_of env s b :: trainPerLosses env (_train_step env s b).1 bs

/-- The per-example eval losses of each step of `runEvalSteps`. -/
def evalPerLosses (env : Ctx) (s : TrainerState) : List Batch → List (List ℚ)
  | [] => []
  | b :: bs => eval_loss_of env s b :: evalPerLosses env (_eval_step env s b).1 bs

/-- Distribution and concurrency related events: entering the strategy
scope, spawning a worker, or synchronizing between workers. -/
def isDistributionEvent : Event → Bool
  | Event.strategyScope => true
  | Event.spawnWorker => true
  | Event.interWorkerSync => true
  | _ => false

/-- A concrete context used to exercise the step functions: the model
echoes its variables, the loss kernel echoes the logits, the gradient
oracle is a divided difference (linear in the recorded function), and
the optimizer appends the gradients. -/
def cEnv : Ctx where
  model := fun p _inp _training => p
  time_reduction_factor := 2
  rnnt_loss := fun logits _labels _ll _gl _blank => logits
  grad := fun f p => [f p - f []]
  apply_gradients := fun o g v => (o ++ g, v ++ g)
  blank := 0
  global_batch_size := 2
  is_mixed_precision := false

/-- A concrete trainer state with freshly installed metrics. -/
def cState : TrainerState where
  trainable_variables := [1]
  opt_state := [0]
  loss_scale := 2
  train_metrics := set_train_metrics
  eval_metrics := set_eval_metrics

/-- A concrete batch whose input length 3 is not divisible by the
time reduction factor 2 of `cEnv`. -/
def cBatch : Batch where
  path := "a"
  features := [1, 2]
  input_length := [3]
  labels := [1]
  label_length := [1]
  pred_inp := [0]

/-- Closed form of `_train_step`: the pipeline it runs, stage by stage. -/
theorem train_step_closed (env : Ctx) (s : TrainerState) (batch : Batch) :
    _train_step env s batch =
      ({ s with
          opt_state := (env.apply_gradients s.opt_state (gradients_of env s batch)
            s.trainable_variables).1,
          trainable_variables := (env.apply_gradients s.opt_state (gradients_of env s batch)
            s.trainable_variables).2,
          train_metrics := updateMetric s.train_metrics "transducer_loss"
            (per_train_loss_of env s batch) },
       [Event.modelCall s.trainable_variables batch.features batch.pred_inp true,
        Event.lossCall
          (env.model s.trainable_variables (batch.features, batch.pred_inp) true)
          batch.labels batch.label_length
          (batch.input_length.map (fun l => l / env.time_reduction_factor)) env.blank,
        Event.gradCompute,
        Event.applyGrads (gradients_of env s batch),
        Event.metricUpdate "transducer_loss" (per_train_loss_of env s batch)]) := rfl

/-- Closed form of `_eval_step`. -/
theorem eval_step_closed (env : Ctx) (s : TrainerState) (batch : Batch) :
    _eval_step env s batch =
      ({ s with
          eval_metrics := updateMetric s.eval_metrics "transducer_loss"
            (eval_loss_of env s batch) },
       [Event.modelCall s.trainable_variables batch.features batch.pred_inp false,
        Event.lossCall
          (env.model s.trainable_variables (batch.features, batch.pred_inp) false)
          batch.labels batch.label_length
          (batch.input_length.map (fun l => l / env.time_reduction_factor)) env.blank,
        Event.metricUpdate "transducer_loss" (eval_loss_of env s batch)]) := rfl

/-- C1: for every batch, `_train_step` runs the pipeline in source
order — model forward in training mode, per-example RNNT loss on those
logits with the batch's labels, label lengths, reduced logit lengths and
the featurizer's blank index, average by the global batch size, gradient
of that (loss-scaled when mixed precision) average with respect to the
trainable variables, optimizer application of those gradients, and
accumulation of the per-example losses into the train metric. -/
theorem train_step_runs_pipeline_in_order (env : Ctx) (s : TrainerState) (batch : Batch) :
    _train_step env s batch =
      ({ s with
          opt_state := (env.apply_gradients s.opt_state (gradients_of env s batch)
            s.trainable_variables).1,
          trainable_variables := (env.apply_gradients s.opt_state (gradients_of env s batch)
            s.trainable_variables).2,
          train_metrics := updateMetric s.train_metrics "transducer_loss"
            (per_train_loss_of env s batch) },
       [Event.modelCall s.trainable_variables batch.features batch.pred_inp true,
        Event.lossCall
          (env.model s.trainable_variables (batch.features, batch.pred_inp) true)
          batch.labels batch.label_length
          (batch.input_length.map (fun l => l / env.time_reduction_factor)) env.blank,
        Event.gradCompute,
        Event.applyGrads (gradients_of env s batch),
        Event.metricUpdate "transducer_loss" (per_train_loss_of env s batch)]) := rfl

/-- C2: under exact arithmetic (a gradient oracle that is homogeneous in
the recorded function, and a nonzero loss scale), the mixed-precision
branch of `_train_step` — gradient of the scaled loss, then unscaling —
produces the same step as the plain branch. -/
theorem mixed_precision_gradients_match (env : Ctx) (s : TrainerState) (batch : Batch)
    (hlin : ∀ (c : ℚ) (f : List ℚ → ℚ) (p : List ℚ),
      env.grad (fun x => c * f x) p = (env.grad f p).map (fun g => c * g))
    (hscale : s.loss_scale ≠ 0) :
    _train_step { env with is_mixed_precision := true } s batch =
      _train_step { env with is_mixed_precision := false } s batch := by
  have hgr : gradients_of { env with is_mixed_precision := true } s batch =
      gradients_of { env with is_mixed_precision := false } s batch := by
    show (env.grad (fun p => s.loss_scale * train_loss_fn env batch p)
        s.trainable_variables).map (fun g => g / s.loss_scale) =
      env.grad (train_loss_fn env batch) s.trainable_variables
    rw [hlin s.loss_scale (train_loss_fn env batch) s.trainable_variables, List.map_map]
    have hc : ((fun g => g / s.loss_scale) ∘ fun g => s.loss_scale * g) = id := by
      funext g
      simp only [Function.comp_apply, id_eq]
      exact mul_div_cancel_left₀ g hscale
    rw [hc, List.map_id]
  rw [train_step_closed, train_step_closed, hgr]
  rfl

/-- Witness for C2 at a concrete context, state and batch: the loss
scale 2 is nonzero and the two branches take the same step. -/
theorem mixed_precision_gradients_match_witness :
    cState.loss_scale ≠ 0 ∧
      _train_step { cEnv with is_mixed_precision := true } cState cBatch =
        _train_step { cEnv with is_mixed_precision := false } cState cBatch :=
  ⟨by norm_num [cState],
   mixed_precision_gradients_match cEnv cState cBatch
     (by
       intro c f p
       simp [cEnv, mul_sub])
     (by norm_num [cState])⟩

/-- C3: `_eval_step` modifies only the eval metric: the trainable
variables, the optimizer state, the loss scale and the train metrics are
returned unchanged; the eval metric is updated with the RNNT loss of the
`training=False` forward pass; and the trace contains the model call with
`training=False` but no gradient computation and no optimizer call. -/
theorem eval_step_touches_only_eval_metric (env : Ctx) (s : TrainerState) (batch : Batch) :
    (_eval_step env s batch).1.trainable_variables = s.trainable_variables ∧
    (_eval_step env s batch).1.opt_state = s.opt_state ∧
    (_eval_step env s batch).1.loss_scale = s.loss_scale ∧
    (_eval_step env s batch).1.train_metrics = s.train_metrics ∧
    (_eval_step env s batch).1.eval_metrics =
      updateMetric s.eval_metrics "transducer_loss" (eval_loss_of env s batch) ∧
    Event.modelCall s.trainable_variables batch.features batch.pred_inp false ∈
      (_eval_step env s batch).2 ∧
    Event.gradCompute ∉ (_eval_step env s batch).2 ∧
    (∀ g : List ℚ, Event.applyGrads g ∉ (_eval_step env s batch).2) := by
  refine ⟨rfl, rfl, rfl, rfl, rfl, ?_, ?_, ?_⟩
  · simp [_eval_step]
  · simp [_eval_step]
  · intro g
    simp [_eval_step]

/-- C4: `compile` resolves the optimizer with `tf.keras.optimizers.get`
and wraps it in a dynamic `LossScaleOptimizer` exactly when
`is_mixed_precision`; in both cases the checkpoint manager is then
created over the model and that optimizer with the given `max_to_keep`. -/
theorem compile_wraps_optimizer_iff_mixed (is_mixed_precision : Bool)
    (model : String) (optimizer : String) (max_to_keep : ℕ) :
    (compile is_mixed_precision model optimizer max_to_keep).1.optimizer =
      some (if is_mixed_precision then
          OptimizerObj.lossScaleOptimizer (optimizers_get optimizer) "dynamic"
        else optimizers_get optimizer) ∧
    (compile is_mixed_precision model optimizer max_to_keep).1.model = some model ∧
    (compile is_mixed_precision model optimizer max_to_keep).1.ckpt_manager =
      some (create_checkpoint_manager max_to_keep model
        (if is_mixed_precision then
          OptimizerObj.lossScaleOptimizer (optimizers_get optimizer) "dynamic"
        else optimizers_get optimizer)) :=
  ⟨rfl, rfl, rfl⟩

/-- C5: neither step catches or transforms an error: whichever
collaborator fails first — the model call, the `rnnt_loss` kernel, the
gradient computation or the optimizer — its error is returned to the
caller unchanged, in the train step and in the eval step. -/
theorem step_errors_propagate_unchanged (ε : Type) (e : ε) (envE : CtxE ε)
    (s : TrainerState) (batch : Batch) (lv pv gv : List ℚ) :
    _train_stepE { envE with model := (fun _p _inp _t => Except.error e) } s batch =
      Except.error e ∧
    _train_stepE { envE with
        model := (fun _p _inp _t => Except.ok lv)
        rnnt_loss := (fun _lg _lb _ll _gl _bk => Except.error e) } s batch =
      Except.error e ∧
    _train_stepE { envE with
        model := (fun _p _inp _t => Except.ok lv)
        rnnt_loss := (fun _lg _lb _ll _gl _bk => Except.ok pv)
        grad := (fun _v _p => Except.error e) } s batch =
      Except.error e ∧
    _train_stepE { envE with
        model := (fun _p _inp _t => Except.ok lv)
        rnnt_loss := (fun _lg _lb _ll _gl _bk => Except.ok pv)
        grad := (fun _v _p => Except.ok gv)
        apply_gradients := (fun _o _g _v => Except.error e) } s batch =
      Except.error e ∧
    _eval_stepE { envE with model := (fun _p _inp _t => Except.error e) } s batch =
      Except.error e ∧
    _eval_stepE { envE with
        model := (fun _p _inp _t => Except.ok lv)
        rnnt_loss := (fun _lg _lb _ll _gl _bk => Except.error e) } s batch =
      Except.error e := by
  obtain ⟨mf, trf, lf, gf, af, bk, gbs, flag⟩ := envE
  refine ⟨rfl, rfl, ?_, ?_, rfl, rfl⟩ <;> cases flag <;> rfl

/-- The train metrics after one `_train_step`: the train metric updated
with the per-example losses of that step. -/
theorem train_metrics_step (env : Ctx) (s : TrainerState) (batch : Batch) :
    ((_train_step env s batch).1).train_metrics =
      updateMetric s.train_metrics "transducer_loss" (per_train_loss_of env s batch) := rfl

/-- The eval metrics after one `_eval_step`. -/
theorem eval_metrics_step (env : Ctx) (s : TrainerState) (batch : Batch) :
    ((_eval_step env s batch).1).eval_metrics =
      updateMetric s.eval_metrics "transducer_loss" (eval_loss_of env s batch) := rfl

/-- Updating a one-entry metric dictionary at its own key. -/
theorem updateMetric_single (key : String) (m : MeanMetric) (vs : List ℚ) :
    updateMetric [(key, m)] key vs = [(key, m.updateState vs)] := by
  simp [updateMetric]

/-- Running total and count of the train metric over a list of batches:
all per-example losses seen are summed and counted. -/
theorem runTrain_metrics (env : Ctx) (bs : List Batch) :
    ∀ (s : TrainerState) (m : MeanMetric),
      s.train_metrics = [("transducer_loss", m)] →
      (runTrainSteps env s bs).train_metrics =
        [("transducer_loss",
          { name := m.name, dtype := m.dtype,
            total := m.total + ((trainPerLosses env s bs).map List.sum).sum,
            count := m.count + ((trainPerLosses env s bs).map List.length).sum })] := by
  induction bs with
  | nil =>
    intro s m hm
    simp [runTrainSteps, trainPerLosses, hm]
  | cons b bs ih =>
    intro s m hm
    have h1 : ((_train_step env s b).1).train_metrics =
        [("transducer_loss", m.updateState (per_train_loss_of env s b))] := by
      rw [train_metrics_step, hm, updateMetric_single]
    have h2 := ih (_train_step env s b).1 (m.updateState (per_train_loss_of env s b)) h1
    show (runTrainSteps env (_train_step env s b).1 bs).train_metrics = _
    rw [h2]
    simp [MeanMetric.updateState, trainPerLosses, add_assoc]

/-- Running total and count of the eval metric over a list of batches. -/
theorem runEval_metrics (env : Ctx) (bs : List Batch) :
    ∀ (s : TrainerState) (m : MeanMetric),
      s.eval_metrics = [("transducer_loss", m)] →
      (runEvalSteps env s bs).eval_metrics =
        [("transducer_loss",
          { name := m.name, dtype := m.dtype,
            total := m.total + ((evalPerLosses env s bs).map List.sum).sum,
            count := m.count + ((evalPerLosses env s bs).map List.length).sum })] := by
  induction bs with
  | nil =>
    intro s m hm
    simp [runEvalSteps, evalPerLosses, hm]
  | cons b bs ih =>
    intro s m hm
    have h1 : ((_eval_step env s b).1).eval_metrics =
        [("transducer_loss", m.updateState (eval_loss_of env s b))] := by
      rw [eval_metrics_step, hm, updateMetric_single]
    have h2 := ih (_eval_step env s b).1 (m.updateState (eval_loss_of env s b)) h1
    show (runEvalSteps env (_eval_step env s b).1 bs).eval_metrics = _
    rw [h2]
    simp [MeanMetric.updateState, evalPerLosses, add_assoc]

/-- C6: `set_train_metrics` and `set_eval_metrics` each install exactly
one metric, a float32 `Mean` keyed `"transducer_loss"` starting at zero;
every train step accumulates that step's per-example losses (before the
average by the global batch size) and every eval step accumulates the
per-example eval losses, so after any number of steps starting from a
fresh metric the metric's total and count are the sum and the number of
all per-example losses seen, and its result is their mean. -/
theorem metrics_hold_running_mean (env : Ctx) (s : TrainerState) (bs : List Batch) :
    set_train_metrics =
      [("transducer_loss",
        { name := "train_transducer_loss", dtype := "float32", total := 0, count := 0 })] ∧
    set_eval_metrics =
      [("transducer_loss",
        { name := "eval_transducer_loss", dtype := "float32", total := 0, count := 0 })] ∧
    (runTrainSteps env { s with train_metrics := set_train_metrics } bs).train_metrics =
      [("transducer_loss",
        { name := "train_transducer_loss", dtype := "float32",
          total := ((trainPerLosses env { s with train_metrics := set_train_metrics }
            bs).map List.sum).sum,
          count := ((trainPerLosses env { s with train_metrics := set_train_metrics }
            bs).map List.length).sum })] ∧
    MeanMetric.result
      { name := "train_transducer_loss", dtype := "float32",
        total := ((trainPerLosses env { s with train_metrics := set_train_metrics }
          bs).map List.sum).sum,
        count := ((trainPerLosses env { s with train_metrics := set_train_metrics }
          bs).map List.length).sum } =
      ((trainPerLosses env { s with train_metrics := set_train_metrics } bs).flatten.sum) /
        (((trainPerLosses env { s with train_metrics := set_train_metrics }
          bs).flatten.length : ℚ)) ∧
    (runEvalSteps env { s with eval_metrics := set_eval_metrics } bs).eval_metrics =
      [("transducer_loss",
        { name := "eval_transducer_loss", dtype := "float32",
          total := ((evalPerLosses env { s with eval_metrics := set_eval_metrics }
            bs).map List.sum).sum,
          count := ((evalPerLosses env { s with eval_metrics := set_eval_metrics }
            bs).map List.length).sum })] ∧
    MeanMetric.result
      { name := "eval_transducer_loss", dtype := "float32",
        total := ((evalPerLosses env { s with eval_metrics := set_eval_metrics }
          bs).map List.sum).sum,
        count := ((evalPerLosses env { s with eval_metrics := set_eval_metrics }
          bs).map List.length).sum } =
      ((evalPerLosses env { s with eval_metrics := set_eval_metrics } bs).flatten.sum) /
        (((evalPerLosses env { s with eval_metrics := set_eval_metrics }
          bs).flatten.length : ℚ)) := by
  refine ⟨rfl, rfl, ?_, ?_, ?_, ?_⟩
  · have h := runTrain_metrics env bs { s with train_metrics := set_train_metrics }
      { name := "train_transducer_loss", dtype := "float32", total := 0, count := 0 } rfl
    simpa using h
  · rw [MeanMetric.result]
    rw [List.sum_flatten,
      List.length_flatten (trainPerLosses env { s with train_metrics := set_train_metrics } bs)]
  · have h := runEval_metrics env bs { s with eval_metrics := set_eval_metrics }
      { name := "eval_transducer_loss", dtype := "float32", total := 0, count := 0 } rfl
    simpa using h
  · rw [MeanMetric.result]
    rw [List.sum_flatten,
      List.length_flatten (evalPerLosses env { s with eval_metrics := set_eval_metrics } bs)]

/-- C7: the step methods emit no distribution or concurrency event
(no strategy-scope entry, no worker spawn, no inter-worker
synchronization); the only distribution-related event of `compile` is
entering the externally supplied strategy's scope, exactly once. -/
theorem steps_do_no_concurrency (env : Ctx) (s : TrainerState) (batch : Batch)
    (is_mixed_precision : Bool) (model : String) (optimizer : String) (max_to_keep : ℕ)
    (train_dataset : String) (eval_dataset : String) (eval_train_rate : ℕ) :
    ((_train_step env s batch).2.filter isDistributionEvent = []) ∧
    ((_eval_step env s batch).2.filter isDistributionEvent = []) ∧
    ((compile is_mixed_precision model optimizer max_to_keep).2.filter isDistributionEvent =
      [Event.strategyScope]) ∧
    ((fit train_dataset eval_dataset eval_train_rate).filter isDistributionEvent = []) ∧
    Event.spawnWorker ∉ (_train_step env s batch).2 ∧
    Event.interWorkerSync ∉ (_train_step env s batch).2 ∧
    Event.spawnWorker ∉ (_eval_step env s batch).2 ∧
    Event.interWorkerSync ∉ (_eval_step env s batch).2 ∧
    Event.spawnWorker ∉ (compile is_mixed_precision model optimizer max_to_keep).2 ∧
    Event.interWorkerSync ∉ (compile is_mixed_precision model optimizer max_to_keep).2 := by
  refine ⟨?_, ?_, rfl, rfl, ?_, ?_, ?_, ?_, ?_, ?_⟩ <;>
    simp [_train_step, _eval_step, compile, isDistributionEvent]

/-- Ceiling division exceeds floor division off multiples: with `0 < t`
and `t` not dividing `l`, floor division drops the remainder. -/
theorem floor_div_drops_remainder (l t : ℕ) (ht : 0 < t) (hnd : ¬ t ∣ l) :
    t * (l / t) < l ∧ l / t < (l + t - 1) / t := by
  constructor
  · exact lt_of_le_of_ne (Nat.mul_div_le l t) (fun h => hnd ⟨l / t, h.symm⟩)
  · have hr : l % t ≠ 0 := fun h => hnd (Nat.dvd_of_mod_eq_zero h)
    have h1 : 1 ≤ l % t := Nat.one_le_iff_ne_zero.mpr hr
    have h2 : l % t < t := Nat.mod_lt l ht
    have hmul : (l / t + 1) * t ≤ l + t - 1 := by
      have hdm := Nat.div_add_mod l t
      have : (l / t + 1) * t = t * (l / t) + t := by ring
      omega
    have := (Nat.le_div_iff_mul_le ht).mpr hmul
    omega

/-- C8: in both steps the `logit_length` handed to `rnnt_loss` is the
elementwise floor division of `input_length` by the model's
`time_reduction_factor`; for an `input_length` not divisible by that
factor the remainder frames are dropped (the product is strictly below
the input length, and floor division is strictly below ceiling
division). -/
theorem logit_length_is_floor_div (env : Ctx) (s : TrainerState) (batch : Batch)
    (l t : ℕ) (ht : 0 < t) (hnd : ¬ t ∣ l) :
    Event.lossCall (env.model s.trainable_variables (batch.features, batch.pred_inp) true)
      batch.labels batch.label_length
      (batch.input_length.map (fun x => x / env.time_reduction_factor)) env.blank ∈
      (_train_step env s batch).2 ∧
    Event.lossCall (env.model s.trainable_variables (batch.features, batch.pred_inp) false)
      batch.labels batch.label_length
      (batch.input_length.map (fun x => x / env.time_reduction_factor)) env.blank ∈
      (_eval_step env s batch).2 ∧
    t * (l / t) < l ∧ l / t < (l + t - 1) / t := by
  refine ⟨?_, ?_, floor_div_drops_remainder l t ht hnd⟩
  · simp [_train_step]
  · simp [_eval_step]

/-- Witness for C8: time reduction factor 2 and input length 3. -/
theorem logit_length_is_floor_div_witness :
    (0 < 2 ∧ ¬ (2 ∣ 3)) ∧
    (Event.lossCall (cEnv.model cState.trainable_variables (cBatch.features, cBatch.pred_inp) true)
      cBatch.labels cBatch.label_length
      (cBatch.input_length.map (fun x => x / cEnv.time_reduction_factor)) cEnv.blank ∈
      (_train_step cEnv cState cBatch).2 ∧
    Event.lossCall (cEnv.model cState.trainable_variables (cBatch.features, cBatch.pred_inp) false)
      cBatch.labels cBatch.label_length
      (cBatch.input_length.map (fun x => x / cEnv.time_reduction_factor)) cEnv.blank ∈
      (_eval_step cEnv cState cBatch).2 ∧
    2 * (3 / 2) < 3 ∧ 3 / 2 < (3 + 2 - 1) / 2) :=
  ⟨⟨by decide, by decide⟩,
   logit_length_is_floor_div cEnv cState cBatch 3 2 (by decide) (by decide)⟩

/-- C9: the train step and the eval step hand `rnnt_loss` the same
labels, label lengths, floor-divided logit lengths and blank index from
the batch; the only difference is the logits, produced by the model call
with `training=True` in the train step and `training=False` in the eval
step. -/
theorem train_eval_loss_args_agree (env : Ctx) (s : TrainerState) (batch : Batch) :
    (_train_step env s batch).2.get? 1 =
      some (Event.lossCall
        (env.model s.trainable_variables (batch.features, batch.pred_inp) true)
        batch.labels batch.label_length
        (batch.input_length.map (fun l => l / env.time_reduction_factor)) env.blank) ∧
    (_eval_step env s batch).2.get? 1 =
      some (Event.lossCall
        (env.model s.trainable_variables (batch.features, batch.pred_inp) false)
        batch.labels batch.label_length
        (batch.input_length.map (fun l => l / env.time_reduction_factor)) env.blank) :=
  ⟨rfl, rfl⟩

/-- C10: `fit` performs its four actions in a fixed order — set the
train data loader, set the eval data loader with the given ratio, load
the latest checkpoint, and only then start the training loop. -/
theorem fit_runs_in_fixed_order (train_dataset : String) (eval_dataset : String)
    (eval_train_rate : ℕ) :
    fit train_dataset eval_dataset eval_train_rate =
      [Event.setTrainLoader train_dataset,
       Event.setEvalLoader eval_dataset eval_train_rate,
       Event.loadCheckpoint,
       Event.runLoop] ∧
    (fit train_dataset eval_dataset eval_train_rate).get? 2 = some Event.loadCheckpoint ∧
    (fit train_dataset eval_dataset eval_train_rate).get? 3 = some Event.runLoop :=
  ⟨rfl, rfl, rfl⟩

end TiramisuASR
